import Mathlib

/-!
Shallow embedding of the ckdb accounting daemon core (src/src/ckdb.c) and
proofs about it.  Pure functions of the C source become Lean functions; the
global in-memory tables become explicit state values threaded through the
handlers; PostgreSQL calls become boolean/arbitrary-value oracles standing for
the database's replies.  C strings are modelled as Lean `String`s: every input
reaching the modelled code paths is validated to printable ASCII upstream
(`userpatt`, `mailpatt`, `hashpatt`), so byte-level and char-level truncation
agree.  `double` fields (`diff`, `sdiff`, hashrates) are carried as their
source text, since no verified property depends on floating-point arithmetic
over them; timestamp differences are computed in exact integer microseconds,
which coincides with the C `double` computation on the value ranges involved
(all values are integer microsecond quantities far below 2^53).
-/

namespace Ckdb

/-- Timestamp as seconds + microseconds, mirroring `tv_t`. -/
structure Tv where
  sec : Int
  usec : Int
  deriving DecidableEq, Inhabited, Repr

/-- 6-Jun-6666 06:06:06+00 (`#define DEFAULT_EXPIRY 148204965966L`). -/
def DEFAULT_EXPIRY : Int := 148204965966

/-- 1-Jun-6666 00:00:00+00 (`#define COMPARE_EXPIRY 148204512000L`). -/
def COMPARE_EXPIRY : Int := 148204512000

/-- 31-Dec-9999 23:59:59+00 (`#define DATE_S_EOT 253402300799L`). -/
def DATE_S_EOT : Int := 253402300799

/-- `static const tv_t default_expiry = \x7b DEFAULT_EXPIRY, 0L \x7d`. -/
def default_expiry : Tv := ⟨DEFAULT_EXPIRY, 0⟩

/-- `static const tv_t date_eot = \x7b DATE_S_EOT, DATE_uS_EOT \x7d`. -/
def date_eot : Tv := ⟨DATE_S_EOT, 0⟩

/-- `tvdiff` (libckpool) returns the difference as a double in seconds; the
model computes the exact difference in microseconds, so `tvdiff a b > x`
becomes `tvdiffUs a b > x * 1000000`. -/
def tvdiffUs (a b : Tv) : Int :=
  (a.sec - b.sec) * 1000000 + (a.usec - b.usec)

/-- `#define STATS_PER (9.5*60.0)` = 570 seconds, in microseconds. -/
def STATS_PER_US : Int := 570 * 1000000

/-- `STRNCPY(trg, src)`: copy truncated to the destination capacity minus the
terminating NUL. -/
def strncpyTrunc (n : Nat) (s : String) : String :=
  (s.toList.take n).asString

/-- Characters `isspace` accepts (as skipped by `atoi`). -/
def isSpaceChar (c : Char) : Bool :=
  c == ' ' || c == '\t' || c == '\n' || c == '\x0B' || c == '\x0C' || c == '\r'

def digitsToNat (l : List Char) : Nat :=
  l.foldl (fun a c => a * 10 + (c.toNat - '0'.toNat)) 0

/-- C `atoi`: skip whitespace, optional sign, leading digits; 0 when no digit.
Overflow of the C `int` is undefined behaviour; the model keeps the
mathematical value. -/
def atoi (s : String) : Int :=
  let l := s.toList.dropWhile isSpaceChar
  match l with
  | '-' :: rest => -(digitsToNat (rest.takeWhile Char.isDigit) : Int)
  | '+' :: rest => (digitsToNat (rest.takeWhile Char.isDigit) : Int)
  | _ => (digitsToNat (l.takeWhile Char.isDigit) : Int)

/-- C `atoll`, same surface semantics as `atoi` at int64 width. -/
def atoll (s : String) : Int := atoi s

/-- `strcasecmp(a, b) == 0`: equality after per-character `tolower`. -/
def strcaseEq (a b : String) : Bool :=
  a.toList.map Char.toLower == b.toList.map Char.toLower

/-- The parsed-seconds clamp in the `TYPE_TV` branch of `txt_to_data`:
`if (tim > COMPARE_EXPIRY)` the value becomes `default_expiry`, otherwise the
parsed seconds and microseconds are kept.  `tim` is the `mktime` result for
the date string, `uS` the parsed microseconds (0 when absent). -/
def txt_to_tv (tim : Int) (uS : Int) : Tv :=
  if tim > COMPARE_EXPIRY then default_expiry else ⟨tim, uS⟩

/-! ## secondaryuserid (users_add lines 1329-1331) -/

def hexDigits : List Char := "0123456789abcdef".toList

def hexDigit (n : Nat) : Char := hexDigits.getD (n % 16) '0'

/-- The 8 bytes of a 64-bit value in memory (little-endian) order. -/
def bytesLE (h : Nat) : List Nat :=
  [h % 256, h / 256 % 256, h / 256 ^ 2 % 256, h / 256 ^ 3 % 256,
   h / 256 ^ 4 % 256, h / 256 ^ 5 % 256, h / 256 ^ 6 % 256, h / 256 ^ 7 % 256]

def byteHex (b : Nat) : List Char := [hexDigit (b / 16 % 16), hexDigit (b % 16)]

/-- Modelled from the spec: `__bin2hex` lives in libckpool, which is not under
src/; per the spec the hash is "rendered as lowercase hex", and the call site
passes the address of the `uint64_t` hash with size 8, so the bytes are
rendered in their little-endian memory order. -/
def bin2hex64 (h : Nat) : String :=
  ((bytesLE h).map byteHex).flatten.asString

/-- Modelled from the spec: `HASH_BER` lives in libckpool, which is not under
src/; per the spec it is the Bernstein-style hash `h = ((h<<5)+h) + c` over
the string, i.e. `h := h*33 + c` per byte, seeded with the `1` passed at the
call site, in 64-bit arithmetic. -/
def hashBer (s : List Char) : Nat :=
  s.foldl (fun h c => (h * 33 + c.toNat % 256) % 2 ^ 64) 1

/-- `snprintf(tohash, sizeof(tohash), "%s&#%s", username, emailaddress)` with
`char tohash[64]`: the literal is truncated to 63 characters. -/
def users_tohash (username emailaddress : String) : List Char :=
  ((username ++ "&#" ++ emailaddress).toList).take 63

/-- The `secondaryuserid` computed inside `users_add`. -/
def secondaryuserid_of (username emailaddress : String) : String :=
  bin2hex64 (hashBer (users_tohash username emailaddress))

/-! ## Date-control bundles -/

/-- `HISTORYDATECONTROLFIELDS`. -/
structure HistFields where
  createdate : Tv
  createby : String
  createcode : String
  createinet : String
  expirydate : Tv
  deriving DecidableEq, Inhabited, Repr

/-- `SIMPLEDATECONTROLFIELDS`. -/
structure SimpleFields where
  createdate : Tv
  createby : String
  createcode : String
  createinet : String
  deriving DecidableEq, Inhabited, Repr

/-- `HISTORYDATEINIT`: create fields from `now`/`by`/`code`/`inet`, expirydate
set to the live sentinel.  Buffer sizes: createby 64, createcode 128,
createinet 128. -/
def historydateinit (now : Tv) (cby ccode cinet : String) : HistFields :=
  ⟨now, strncpyTrunc 64 cby, strncpyTrunc 128 ccode, strncpyTrunc 128 cinet, default_expiry⟩

/-- `SIMPLEDATEINIT`. -/
def simpledateinit (now : Tv) (cby ccode cinet : String) : SimpleFields :=
  ⟨now, strncpyTrunc 64 cby, strncpyTrunc 128 ccode, strncpyTrunc 128 cinet⟩

/-! ## Transfer map access -/

/-- `optional_name(name, len, NULL)`: `NULL` when the field is absent, empty
or shorter than `len`. -/
def optional_name (transfer : List (String × String)) (name : String) (len : Nat) :
    Option String :=
  match transfer.lookup name with
  | none => none
  | some v => if v = "" ∨ v.length < len then none else some v

/-- `require_name(name, len, patt)`: the error strings are the replies the
handlers return verbatim.  The patterns used by the modelled handlers always
compile, so the `failed.REC` branch is unreachable and omitted. -/
def require_name_patt (transfer : List (String × String)) (name : String) (len : Nat)
    (patt : String → Bool) : Except String String :=
  match transfer.lookup name with
  | none => Except.error ("failed.missing " ++ name)
  | some v =>
    if v = "" ∨ v.length < len then Except.error ("failed.short " ++ name)
    else if patt v then Except.ok v
    else Except.error ("failed.invalid " ++ name)

/-- `require_name` with a NULL pattern. -/
def require_name (transfer : List (String × String)) (name : String) (len : Nat) :
    Except String String :=
  require_name_patt transfer name len (fun _ => true)

/-- `^[!-~]*$` (no spaces). -/
def userpatt (s : String) : Bool :=
  s.toList.all (fun c => decide (33 ≤ c.toNat ∧ c.toNat ≤ 126))

/-- `^[A-Fa-f0-9]*$` (byte classes 0x30-0x39, 0x61-0x66, 0x41-0x46). -/
def hashpatt (s : String) : Bool :=
  s.toList.all (fun c =>
    decide (48 ≤ c.toNat ∧ c.toNat ≤ 57) ||
    decide (97 ≤ c.toNat ∧ c.toNat ≤ 102) ||
    decide (65 ≤ c.toNat ∧ c.toNat ≤ 70))

/-- sscanf of `"%ld"`: whitespace, optional sign, digits; `none` when the
conversion fails. -/
def parseLong (l : List Char) : Option (Int × List Char) :=
  let l' := l.dropWhile isSpaceChar
  match l' with
  | '-' :: rest =>
    let ds := rest.takeWhile Char.isDigit
    if ds.isEmpty then none else some (-(digitsToNat ds : Int), rest.drop ds.length)
  | '+' :: rest =>
    let ds := rest.takeWhile Char.isDigit
    if ds.isEmpty then none else some ((digitsToNat ds : Int), rest.drop ds.length)
  | _ =>
    let ds := l'.takeWhile Char.isDigit
    if ds.isEmpty then none else some ((digitsToNat ds : Int), l'.drop ds.length)

/-- sscanf of `"%ld,%ld"` as used by `HISTORYDATETRANSFER` /
`SIMPLEDATETRANSFER`: `(sec, some usec)` when both convert, `(sec, none)` when
only the first does, `none` when neither does. -/
def parseCreatedate (s : String) : Option (Int × Option Int) :=
  match parseLong s.toList with
  | none => none
  | some (sec, rest) =>
    match rest with
    | ',' :: rest2 =>
      match parseLong rest2 with
      | none => some (sec, none)
      | some (usec, _) => some (sec, some usec)
    | _ => some (sec, none)

/-- The `createdate` override shared by `HISTORYDATETRANSFER` and
`SIMPLEDATETRANSFER`: when a `createdate` transfer field of length ≥ 10 is
present and its first `%ld` converts, it replaces the row's createdate
(microseconds 0 when the second `%ld` does not convert). -/
def transferCreatedate (transfer : List (String × String)) (cd : Tv) : Tv :=
  match optional_name transfer "createdate" 10 with
  | none => cd
  | some v =>
    match parseCreatedate v with
    | none => cd
    | some (sec, none) => ⟨sec, 0⟩
    | some (sec, some usec) => ⟨sec, usec⟩

/-- `HISTORYDATETRANSFER`: override create fields from the transfer map. -/
def historydatetransfer (transfer : List (String × String)) (h : HistFields) : HistFields :=
  { h with
    createdate := transferCreatedate transfer h.createdate
    createby := match optional_name transfer "createby" 1 with
      | some v => strncpyTrunc 64 v
      | none => h.createby
    createcode := match optional_name transfer "createcode" 1 with
      | some v => strncpyTrunc 128 v
      | none => h.createcode
    createinet := match optional_name transfer "createinet" 1 with
      | some v => strncpyTrunc 128 v
      | none => h.createinet }

/-- `SIMPLEDATETRANSFER`. -/
def simpledatetransfer (transfer : List (String × String)) (h : SimpleFields) : SimpleFields :=
  { h with
    createdate := transferCreatedate transfer h.createdate
    createby := match optional_name transfer "createby" 1 with
      | some v => strncpyTrunc 64 v
      | none => h.createby
    createcode := match optional_name transfer "createcode" 1 with
      | some v => strncpyTrunc 128 v
      | none => h.createcode
    createinet := match optional_name transfer "createinet" 1 with
      | some v => strncpyTrunc 128 v
      | none => h.createinet }

/-! ## Entity rows -/

/-- `struct users`. -/
structure USERS where
  userid : Int
  username : String
  emailaddress : String
  joineddate : Tv
  passwordhash : String
  secondaryuserid : String
  hist : HistFields
  deriving DecidableEq, Inhabited, Repr

/-- `struct workers`. -/
structure WORKERS where
  workerid : Int
  userid : Int
  workername : String
  difficultydefault : Int
  idlenotificationenabled : String
  idlenotificationtime : Int
  hist : HistFields
  deriving DecidableEq, Inhabited, Repr

/-- `struct payments`. -/
structure PAYMENTS where
  paymentid : Int
  userid : Int
  paydate : Tv
  payaddress : String
  originaltxn : String
  amount : Int
  committxn : String
  commitblockhash : String
  hist : HistFields
  deriving DecidableEq, Inhabited, Repr

/-- `struct workinfo`; the two blob fields are heap strings. -/
structure WORKINFO where
  workinfoid : Int
  poolinstance : String
  transactiontree : String
  merklehash : String
  prevhash : String
  coinbase1 : String
  coinbase2 : String
  version : String
  bits : String
  ntime : String
  reward : Int
  hist : HistFields
  deriving DecidableEq, Inhabited, Repr

/-- `struct shares`; `diff` and `sdiff` are doubles carried as their source
text, and `errn`/`error` exist in the struct but are never written by
`shares_add`. -/
structure SHARES where
  workinfoid : Int
  userid : Int
  workername : String
  clientid : Int
  enonce1 : String
  nonce2 : String
  nonce : String
  diff : String
  sdiff : String
  errn : Int
  error : String
  secondaryuserid : String
  hist : HistFields
  deriving DecidableEq, Inhabited, Repr

/-- `struct shareerrorss`. -/
structure SHAREERRORS where
  workinfoid : Int
  userid : Int
  workername : String
  clientid : Int
  errn : Int
  error : String
  secondaryuserid : String
  hist : HistFields
  deriving DecidableEq, Inhabited, Repr

/-- `struct auths`. -/
structure AUTHS where
  authid : Int
  userid : Int
  workername : String
  clientid : Int
  enonce1 : String
  useragent : String
  hist : HistFields
  deriving DecidableEq, Inhabited, Repr

/-- `struct poolstats`; the hashrate doubles are carried as their source text
and `when` is never written by `poolstats_add`. -/
structure POOLSTATS where
  poolinstance : String
  when : Tv
  users : Int
  workers : Int
  hashrate : String
  hashrate5m : String
  hashrate1hr : String
  hashrate24hr : String
  simple : SimpleFields
  deriving DecidableEq, Inhabited, Repr

/-- One entity's in-memory side: the klist free list (slots with whatever
content they last held) and the linked rows.  `add_to_ktree` and
`k_add_head(store)` always happen together in the source, so one list stands
for the tree indexes and the store; `k_add_head` prepends. -/
structure KTable (α : Type) where
  freeList : List α
  store : List α
  deriving DecidableEq, Repr

/-- Modelled from the spec: the klist allocator (klist.c is not under src/) is
an implementation-detail free list; `k_unlink_head` pops the head slot, and an
exhausted list grows with fresh zeroed slots. -/
def k_unlink_head [Inhabited α] (l : List α) : α × List α :=
  match l with
  | [] => (default, [])
  | x :: xs => (x, xs)

/-! ## Lookups -/

/-- Modelled from the spec: `find_in_ktree` (ktree.c, not under src/) returns
a row comparing equal to the lookup key under the table's comparator.
`find_users` builds the key from the truncated username and the live-row
expirydate sentinel. -/
def find_users (users : List USERS) (username : String) : Option USERS :=
  let key := strncpyTrunc 256 username
  users.find? (fun u => u.username == key && u.hist.expirydate == default_expiry)

/-- `find_workers`: key is `(userid, truncated workername, DEFAULT_EXPIRY)`. -/
def find_workers (workers : List WORKERS) (userid : Int) (workername : String) :
    Option WORKERS :=
  let key := strncpyTrunc 256 workername
  workers.find? (fun w =>
    w.userid == userid && w.workername == key && w.hist.expirydate == default_expiry)

/-- `find_workinfo`: the C lookup key's expirydate is left uninitialised;
every in-memory workinfo row is live (`workinfo_add` only links live rows and
`workinfo_fill` selects on `expirydate = DEFAULT_EXPIRY`), and the model takes
the benign reading in which the lookup matches those live rows. -/
def find_workinfo (ws : List WORKINFO) (workinfoid : Int) : Option WORKINFO :=
  ws.find? (fun w => w.workinfoid == workinfoid && w.hist.expirydate == default_expiry)

/-! ## ID allocation (nextid) -/

/-- The increment `users_add` passes to `nextid`:
`(int64_t)(666 + (rand() % 334))` for idname "userid". -/
def userid_increment (r : Nat) : Int := 666 + ((r % 334 : Nat) : Int)

/-- The increment `workers_add` passes to `nextid` for idname "workerid". -/
def workerid_increment : Int := 1

/-- The increment `auths_add` passes to `nextid` for idname "authid". -/
def authid_increment : Int := 1

/-- `nextid` on its success path: `lastid += increment`, the new value is
stored back into idcontrol and returned (0 is the error sentinel returned on
any DB failure). -/
def nextid_value (lastid increment : Int) : Int := lastid + increment

/-! ## Entity add operations -/

/-- `users_add`.  `nid` is the value `nextid` returned (0 on DB error) and
`insert_ok` whether the `insert into users` got a `PGOK` result code. -/
def users_add (st : KTable USERS) (nid : Int) (insert_ok : Bool)
    (username emailaddress passwordhash : String)
    (now : Tv) (cby ccode cinet : String) : Bool × KTable USERS :=
  let (item, rest) := k_unlink_head st.freeList
  let row0 := { item with userid := nid }
  if nid = 0 then
    (false, ⟨row0 :: rest, st.store⟩)
  else
    let row : USERS :=
      { row0 with
        username := strncpyTrunc 256 username
        emailaddress := strncpyTrunc 256 emailaddress
        passwordhash := strncpyTrunc 256 passwordhash
        secondaryuserid := secondaryuserid_of username emailaddress
        hist := historydateinit now cby ccode cinet
        joineddate := now }
    if insert_ok then
      (true, ⟨rest, row :: st.store⟩)
    else
      (false, ⟨row :: rest, st.store⟩)

/-- `workers_add`.  Returns the linked item (`NULL` on failure) and the new
state.  Note the `nottime > IDLENOTIFICATIONTIME_MAX` branch: the C assigns
`row->idlenotificationtime`, a field of the recycled slot that has not been
written yet in this call, so the stale slot content `item.idlenotificationtime`
flows into the new row. -/
def workers_add (st : KTable WORKERS) (nid : Int) (insert_ok : Bool)
    (userid : Int) (workername : String)
    (difficultydefault idlenotificationenabled idlenotificationtime : String)
    (now : Tv) (cby ccode cinet : String) : Option WORKERS × KTable WORKERS :=
  let (item, rest) := k_unlink_head st.freeList
  let row0 := { item with workerid := nid }
  if nid = 0 then
    (none, ⟨row0 :: rest, st.store⟩)
  else
    let row1 := { row0 with userid := userid, workername := strncpyTrunc 256 workername }
    let diffdef : Int :=
      if difficultydefault ≠ "" then
        let d := atoi difficultydefault
        let d := if d < 10 then 10 else d
        if d > 1000000 then 1000000 else d
      else 10
    let idlenot : String :=
      if idlenotificationenabled ≠ "" then
        if (idlenotificationenabled.toList.headD ' ').toLower = 'y' then "y" else " "
      else " "
    let row2 := { row1 with difficultydefault := diffdef, idlenotificationenabled := idlenot }
    let row3 :=
      if idlenotificationtime ≠ "" then
        let t := atoi idlenotificationtime
        if t < 10 then
          { row2 with idlenotificationenabled := " ", idlenotificationtime := 10 }
        else if t > 60 then
          { row2 with idlenotificationtime := item.idlenotificationtime }
        else
          { row2 with idlenotificationtime := t }
      else { row2 with idlenotificationtime := 10 }
    let row : WORKERS := { row3 with hist := historydateinit now cby ccode cinet }
    if insert_ok then (some row, ⟨rest, row :: st.store⟩)
    else (none, ⟨row :: rest, st.store⟩)

/-- `workers_update` on the live in-memory row `row`; the three `*_ok` flags
are the result codes of `Begin`, the expiry `update` and the `insert`.
`HISTORYDATEINIT` runs unconditionally; the value fields are rewritten only
after the expiry update succeeded, and stay rewritten even when the following
insert fails (the C rolls the DB back but not the memory row). -/
def workers_update (row : WORKERS) (begin_ok upd_ok ins_ok : Bool)
    (difficultydefault idlenotificationenabled idlenotificationtime : String)
    (now : Tv) (cby ccode cinet : String) : Bool × WORKERS :=
  let diffdef : Int :=
    if difficultydefault ≠ "" then
      let d := atoi difficultydefault
      let d := if d < 10 then row.difficultydefault else d
      if d > 1000000 then row.difficultydefault else d
    else row.difficultydefault
  let idlenot : String :=
    if idlenotificationenabled ≠ "" then
      if (idlenotificationenabled.toList.headD ' ').toLower = 'y' then "y" else " "
    else row.idlenotificationenabled
  let nottime : Int :=
    if idlenotificationtime ≠ "" then
      let t := atoi idlenotificationtime
      let t := if t < 10 then row.idlenotificationtime else t
      if t > 60 then row.idlenotificationtime else t
    else row.idlenotificationtime
  let row1 := { row with hist := historydateinit now cby ccode cinet }
  if diffdef ≠ row.difficultydefault ∨ idlenot ≠ row.idlenotificationenabled ∨
      nottime ≠ row.idlenotificationtime then
    if ¬ begin_ok then (false, row1)
    else if ¬ upd_ok then (false, row1)
    else
      let row2 := { row1 with
        difficultydefault := diffdef
        idlenotificationenabled := idlenot
        idlenotificationtime := nottime }
      if ¬ ins_ok then (false, row2) else (true, row2)
  else (true, row1)

/-- Replace the first element satisfying `p` (in-place mutation of a found
tree item). -/
def replaceFirst (p : α → Bool) (x : α) : List α → List α
  | [] => []
  | y :: ys => if p y then x :: ys else y :: replaceFirst p x ys

/-- `new_worker`: find, else add; update only when asked (the only caller in
the source, `auths_add`, passes `update = false`). -/
def new_worker (wst : KTable WORKERS) (update : Bool)
    (nid : Int) (insert_ok : Bool) (begin_ok upd_ok ins_ok : Bool)
    (userid : Int) (workername : String)
    (diffdef idlenotificationenabled idlenotificationtime : String)
    (now : Tv) (cby ccode cinet : String) : Option WORKERS × KTable WORKERS :=
  match find_workers wst.store userid workername with
  | some item =>
    if update then
      let (_, row') := workers_update item begin_ok upd_ok ins_ok diffdef
          idlenotificationenabled idlenotificationtime now cby ccode cinet
      (some row', ⟨wst.freeList, replaceFirst (fun w => w == item) row' wst.store⟩)
    else (some item, wst)
  | none =>
    workers_add wst nid insert_ok userid workername diffdef
      idlenotificationenabled idlenotificationtime now cby ccode cinet

/-- `workinfo_add`.  Returns the workinfoid (-1 on failure) and the new state.
The C initialises its local `workinfoid` to -1 and only overwrites it with
`row->workinfoid` when the insert result is `PGOK`; the link step then treats
-1 as the failure sentinel. -/
def workinfo_add (st : KTable WORKINFO) (insert_ok : Bool)
    (workinfoidstr poolinstance transactiontree merklehash prevhash coinbase1
     coinbase2 version bits ntime reward : String)
    (transfer : List (String × String))
    (now : Tv) (cby ccode cinet : String) : Int × KTable WORKINFO :=
  let (item, rest) := k_unlink_head st.freeList
  let row : WORKINFO :=
    { item with
      workinfoid := atoll workinfoidstr
      poolinstance := strncpyTrunc 256 poolinstance
      transactiontree := transactiontree
      merklehash := merklehash
      prevhash := strncpyTrunc 256 prevhash
      coinbase1 := strncpyTrunc 256 coinbase1
      coinbase2 := strncpyTrunc 256 coinbase2
      version := strncpyTrunc 64 version
      bits := strncpyTrunc 64 bits
      ntime := strncpyTrunc 64 ntime
      reward := atoll reward
      hist := historydatetransfer transfer (historydateinit now cby ccode cinet) }
  let workinfoid := if insert_ok then row.workinfoid else -1
  if workinfoid = -1 then
    (-1, ⟨row :: rest, st.store⟩)
  else
    (workinfoid, ⟨rest, row :: st.store⟩)

/-- `shares_add` (memory only; no DB insert).  Rejects when the username, the
workinfoid or the `(userid, workername)` reference does not resolve; the
recycled slot goes back to the free list on rejection. -/
def shares_add (users : List USERS) (workers : List WORKERS) (workinfo : List WORKINFO)
    (st : KTable SHARES) (transfer : List (String × String))
    (workinfoid username workername clientid enonce1 nonce2 nonce diff sdiff
     secondaryuserid : String)
    (now : Tv) (cby ccode cinet : String) : Bool × KTable SHARES :=
  let (item, rest) := k_unlink_head st.freeList
  match find_users users username with
  | none => (false, ⟨item :: rest, st.store⟩)
  | some u =>
    let row : SHARES :=
      { item with
        userid := u.userid
        workinfoid := atoll workinfoid
        workername := strncpyTrunc 256 workername
        clientid := atoi clientid
        enonce1 := strncpyTrunc 64 enonce1
        nonce2 := strncpyTrunc 256 nonce2
        nonce := strncpyTrunc 64 nonce
        diff := diff
        sdiff := sdiff
        secondaryuserid := strncpyTrunc 64 secondaryuserid
        hist := historydatetransfer transfer (historydateinit now cby ccode cinet) }
    match find_workinfo workinfo row.workinfoid with
    | none => (false, ⟨row :: rest, st.store⟩)
    | some _ =>
      match find_workers workers row.userid row.workername with
      | none => (false, ⟨row :: rest, st.store⟩)
      | some _ => (true, ⟨rest, row :: st.store⟩)

/-- `shareerrors_add` (memory only), same shape as `shares_add`. -/
def shareerrors_add (users : List USERS) (workers : List WORKERS)
    (workinfo : List WORKINFO)
    (st : KTable SHAREERRORS) (transfer : List (String × String))
    (workinfoid username workername clientid errn error secondaryuserid : String)
    (now : Tv) (cby ccode cinet : String) : Bool × KTable SHAREERRORS :=
  let (item, rest) := k_unlink_head st.freeList
  match find_users users username with
  | none => (false, ⟨item :: rest, st.store⟩)
  | some u =>
    let row : SHAREERRORS :=
      { item with
        userid := u.userid
        workinfoid := atoll workinfoid
        workername := strncpyTrunc 256 workername
        clientid := atoi clientid
        errn := atoi errn
        error := strncpyTrunc 64 error
        secondaryuserid := strncpyTrunc 64 secondaryuserid
        hist := historydatetransfer transfer (historydateinit now cby ccode cinet) }
    match find_workinfo workinfo row.workinfoid with
    | none => (false, ⟨row :: rest, st.store⟩)
    | some _ =>
      match find_workers workers row.userid row.workername with
      | none => (false, ⟨row :: rest, st.store⟩)
      | some _ => (true, ⟨rest, row :: st.store⟩)

/-- `auths_add`.  `worker_nid`/`worker_insert_ok` feed the auto-provisioning
`new_worker` call (update = false, defaults "10" / " " / "10"); `nid` is the
authid `nextid` returned and `insert_ok` the `insert into auths` result.
Returns the user's secondaryuserid (`NULL` on failure), the workers state
after auto-provisioning and the auths state. -/
def auths_add (users : List USERS) (wst : KTable WORKERS) (ast : KTable AUTHS)
    (worker_nid : Int) (worker_insert_ok : Bool) (nid : Int) (insert_ok : Bool)
    (transfer : List (String × String))
    (username workername clientid enonce1 useragent : String)
    (now : Tv) (cby ccode cinet : String) :
    Option String × KTable WORKERS × KTable AUTHS :=
  let (item, rest) := k_unlink_head ast.freeList
  match find_users users username with
  | none => (none, wst, ⟨item :: rest, ast.store⟩)
  | some u =>
    let (_, wst') := new_worker wst false worker_nid worker_insert_ok true true true
        u.userid workername "10" " " "10" now cby ccode cinet
    let row0 : AUTHS :=
      { item with
        userid := u.userid
        workername := strncpyTrunc 256 workername
        clientid := atoi clientid
        enonce1 := strncpyTrunc 64 enonce1
        useragent := strncpyTrunc 256 useragent
        hist := historydatetransfer transfer (historydateinit now cby ccode cinet) }
    let row := { row0 with authid := nid }
    if nid = 0 then
      (none, wst', ⟨row :: rest, ast.store⟩)
    else if insert_ok then
      (some u.secondaryuserid, wst', ⟨rest, row :: ast.store⟩)
    else
      (none, wst', ⟨row :: rest, ast.store⟩)

/-- `poolstats_add`.  The DB insert happens only when `store` is true;
`insert_ok` is its result code.  The row is always built; on a failed insert
the slot is returned, otherwise the row is linked. -/
def poolstats_add (st : KTable POOLSTATS) (store : Bool) (insert_ok : Bool)
    (transfer : List (String × String))
    (poolinstance users workers hashrate hashrate5m hashrate1hr hashrate24hr : String)
    (now : Tv) (cby ccode cinet : String) : Bool × KTable POOLSTATS :=
  let (item, rest) := k_unlink_head st.freeList
  let row : POOLSTATS :=
    { item with
      poolinstance := strncpyTrunc 256 poolinstance
      users := atoi users
      workers := atoi workers
      hashrate := hashrate
      hashrate5m := hashrate5m
      hashrate1hr := hashrate1hr
      hashrate24hr := hashrate24hr
      simple := simpledatetransfer transfer (simpledateinit now cby ccode cinet) }
  let ok := if store then insert_ok else true
  if ok then (true, ⟨rest, row :: st.store⟩) else (false, ⟨row :: rest, st.store⟩)

/-! ## Handlers -/

/-- `cmd_chkpass`: validate the two fields, look the user up, compare the
supplied hash against the stored one with `strcasecmp`. -/
def cmd_chkpass (users : List USERS) (transfer : List (String × String)) : String :=
  match require_name_patt transfer "username" 3 userpatt with
  | Except.error e => e
  | Except.ok username =>
  match require_name_patt transfer "passwordhash" 64 hashpatt with
  | Except.error e => e
  | Except.ok passwordhash =>
  match find_users users username with
  | none => "bad"
  | some u => if strcaseEq passwordhash u.passwordhash then "ok" else "bad"

/-- `FLDSEP` (0x02) as a string. -/
def fldsepStr : String := (Char.ofNat 2).toString

/-- `cmp_payments` as a ≤ on rows: userid asc, paydate asc, payaddress asc,
expirydate desc. -/
def paymentsLe (a b : PAYMENTS) : Bool :=
  if a.userid ≠ b.userid then decide (a.userid < b.userid)
  else if tvdiffUs a.paydate b.paydate ≠ 0 then decide (tvdiffUs a.paydate b.paydate < 0)
  else
    match compare a.payaddress b.payaddress with
    | Ordering.lt => true
    | Ordering.gt => false
    | Ordering.eq => decide (0 ≤ tvdiffUs b.hist.expirydate a.hist.expirydate)

def insertSorted (le : α → α → Bool) (x : α) : List α → List α
  | [] => [x]
  | y :: ys => if le x y then x :: y :: ys else y :: insertSorted le x ys

def sortByLe (le : α → α → Bool) (l : List α) : List α :=
  l.foldr (insertSorted le) []

/-- `cmd_payments`.  The found branch walks the payments tree from
`(userid, epoch)` collecting every row of that userid in tree order (the model
sorts the matching rows by the comparator; the C lookup key's payaddress is
uninitialised, which could only matter for rows with paydate exactly 0).
`tvfmt` stands for `tv_to_buf`'s localtime/strftime rendering, which depends
on the process timezone; per-chunk `snprintf` truncation of oversized rows is
not modelled.  The borrowed lookup slot is returned, so the state is returned
for the no-change statements. -/
def cmd_payments (users : List USERS) (pst : KTable PAYMENTS)
    (transfer : List (String × String)) (tvfmt : Tv → String) :
    String × KTable PAYMENTS :=
  match require_name_patt transfer "username" 3 userpatt with
  | Except.error e => (e, pst)
  | Except.ok username =>
  match find_users users username with
  | none => ("bad", pst)
  | some u =>
    let rows := sortByLe paymentsLe (pst.store.filter (fun p => p.userid == u.userid))
    let body := String.join (rows.enum.map (fun p =>
      "paydate" ++ toString p.1 ++ "=" ++ tvfmt p.2.paydate ++ fldsepStr ++
      "payaddress" ++ toString p.1 ++ "=" ++ p.2.payaddress ++ fldsepStr ++
      "amount" ++ toString p.1 ++ "=" ++ toString p.2.amount ++ fldsepStr))
    ("ok." ++ body ++ "rows=" ++ toString rows.length, pst)

/-- `cmp_poolstats` against the `(poolinstance, createdate)` lookup key:
poolinstance asc (strcmp), createdate asc.  True iff `a` sorts strictly
before the key. -/
def poolstatsKeyLt (a : POOLSTATS) (pinst : String) (cd : Tv) : Bool :=
  match compare a.poolinstance pinst with
  | Ordering.lt => true
  | Ordering.gt => false
  | Ordering.eq => decide (tvdiffUs a.simple.createdate cd < 0)

def poolstatsLt (a b : POOLSTATS) : Bool :=
  poolstatsKeyLt a b.poolinstance b.simple.createdate

/-- Modelled from the spec: `find_before_in_ktree` (ktree.c, not under src/)
returns the greatest row sorting strictly before the lookup key, `NULL` when
none does. -/
def find_before_poolstats (rows : List POOLSTATS) (pinst : String) (cd : Tv) :
    Option POOLSTATS :=
  rows.foldl (fun acc r =>
    if poolstatsKeyLt r pinst cd then
      match acc with
      | none => some r
      | some b => if poolstatsLt b r then some r else some b
    else acc) none

/-- The store decision of `cmd_poolstats` (lines 3139-3155).  The lookup key
`row` keeps `createdate = date_eot` after `find_before_in_ktree`, and the C
compares the candidate against `row.createdate` — i.e. against `date_eot`,
not against the found row's createdate.  `createdate` is the value
`TXT_TO_TV` produced for the transfer field. -/
def poolstats_store_decision (rows : List POOLSTATS) (pinst : String)
    (createdate : Tv) : Bool :=
  match find_before_poolstats rows (strncpyTrunc 256 pinst) date_eot with
  | none => true
  | some _ => decide (tvdiffUs createdate date_eot > STATS_PER_US)

/-- `cmd_poolstats`, error paths as `Except`.  `mktime_sec`/`mktime_usec`
stand for the broken-down-time parse of the `createdate` transfer string
(`mktime` is locale/timezone dependent); the `COMPARE_EXPIRY` clamp of
`TXT_TO_TV` is applied to them. -/
def cmd_poolstatsE (pst : KTable POOLSTATS) (insert_ok : Bool)
    (transfer : List (String × String)) (mktime_sec mktime_usec : Int)
    (now : Tv) (cby ccode cinet : String) :
    Except String (String × KTable POOLSTATS) :=
  match require_name transfer "poolinstance" 1 with
  | Except.error e => Except.error e
  | Except.ok poolinstance =>
  match require_name transfer "users" 1 with
  | Except.error e => Except.error e
  | Except.ok users =>
  match require_name transfer "workers" 1 with
  | Except.error e => Except.error e
  | Except.ok workers =>
  match require_name transfer "hashrate" 1 with
  | Except.error e => Except.error e
  | Except.ok hashrate =>
  match require_name transfer "hashrate5m" 1 with
  | Except.error e => Except.error e
  | Except.ok hashrate5m =>
  match require_name transfer "hashrate1hr" 1 with
  | Except.error e => Except.error e
  | Except.ok hashrate1hr =>
  match require_name transfer "hashrate24hr" 1 with
  | Except.error e => Except.error e
  | Except.ok hashrate24hr =>
  let storeE : Except String Bool :=
    match find_before_poolstats pst.store (strncpyTrunc 256 poolinstance) date_eot with
    | none => Except.ok true
    | some _ =>
      match require_name transfer "createdate" 1 with
      | Except.error e => Except.error e
      | Except.ok _ =>
        Except.ok
          (decide (tvdiffUs (txt_to_tv mktime_sec mktime_usec) date_eot > STATS_PER_US))
  match storeE with
  | Except.error e => Except.error e
  | Except.ok store =>
  let r := poolstats_add pst store insert_ok transfer poolinstance users workers
      hashrate hashrate5m hashrate1hr hashrate24hr now cby ccode cinet
  if r.1 then Except.ok ("added.ok", r.2) else Except.ok ("bad.DBE", r.2)

/-- `cmd_poolstats` with the failed-validation reply folded in. -/
def cmd_poolstats (pst : KTable POOLSTATS) (insert_ok : Bool)
    (transfer : List (String × String)) (mktime_sec mktime_usec : Int)
    (now : Tv) (cby ccode cinet : String) : String × KTable POOLSTATS :=
  match cmd_poolstatsE pst insert_ok transfer mktime_sec mktime_usec now cby ccode cinet with
  | Except.error e => (e, pst)
  | Except.ok r => r

/-- The `method=shares` branch of `cmd_sharelog`: ten required fields, then
`shares_add`; `bad.DATA` when it rejects, `added.<nonce>` when it accepts. -/
def cmd_sharelog_sharesE (users : List USERS) (workers : List WORKERS)
    (workinfo : List WORKINFO) (st : KTable SHARES)
    (transfer : List (String × String)) (now : Tv) (cby ccode cinet : String) :
    Except String (String × KTable SHARES) :=
  match require_name transfer "workinfoid" 1 with
  | Except.error e => Except.error e
  | Except.ok workinfoid =>
  match require_name transfer "username" 1 with
  | Except.error e => Except.error e
  | Except.ok username =>
  match require_name transfer "workername" 1 with
  | Except.error e => Except.error e
  | Except.ok workername =>
  match require_name transfer "clientid" 1 with
  | Except.error e => Except.error e
  | Except.ok clientid =>
  match require_name transfer "enonce1" 1 with
  | Except.error e => Except.error e
  | Except.ok enonce1 =>
  match require_name transfer "nonce2" 1 with
  | Except.error e => Except.error e
  | Except.ok nonce2 =>
  match require_name transfer "nonce" 1 with
  | Except.error e => Except.error e
  | Except.ok nonce =>
  match require_name transfer "diff" 1 with
  | Except.error e => Except.error e
  | Except.ok diff =>
  match require_name transfer "sdiff" 1 with
  | Except.error e => Except.error e
  | Except.ok sdiff =>
  match require_name transfer "secondaryuserid" 1 with
  | Except.error e => Except.error e
  | Except.ok secondaryuserid =>
  let r := shares_add users workers workinfo st transfer workinfoid username
      workername clientid enonce1 nonce2 nonce diff sdiff secondaryuserid
      now cby ccode cinet
  if r.1 then Except.ok ("added." ++ nonce, r.2) else Except.ok ("bad.DATA", r.2)

def cmd_sharelog_shares (users : List USERS) (workers : List WORKERS)
    (workinfo : List WORKINFO) (st : KTable SHARES)
    (transfer : List (String × String)) (now : Tv) (cby ccode cinet : String) :
    String × KTable SHARES :=
  match cmd_sharelog_sharesE users workers workinfo st transfer now cby ccode cinet with
  | Except.error e => (e, st)
  | Except.ok r => r

/-- The `method=shareerror` branch of `cmd_sharelog`. -/
def cmd_sharelog_shareerrorE (users : List USERS) (workers : List WORKERS)
    (workinfo : List WORKINFO) (st : KTable SHAREERRORS)
    (transfer : List (String × String)) (now : Tv) (cby ccode cinet : String) :
    Except String (String × KTable SHAREERRORS) :=
  match require_name transfer "workinfoid" 1 with
  | Except.error e => Except.error e
  | Except.ok workinfoid =>
  match require_name transfer "username" 1 with
  | Except.error e => Except.error e
  | Except.ok username =>
  match require_name transfer "workername" 1 with
  | Except.error e => Except.error e
  | Except.ok workername =>
  match require_name transfer "clientid" 1 with
  | Except.error e => Except.error e
  | Except.ok clientid =>
  match require_name transfer "errno" 1 with
  | Except.error e => Except.error e
  | Except.ok errn =>
  match require_name transfer "error" 1 with
  | Except.error e => Except.error e
  | Except.ok error =>
  match require_name transfer "secondaryuserid" 1 with
  | Except.error e => Except.error e
  | Except.ok secondaryuserid =>
  let r := shareerrors_add users workers workinfo st transfer workinfoid username
      workername clientid errn error secondaryuserid now cby ccode cinet
  if r.1 then Except.ok ("added." ++ username, r.2) else Except.ok ("bad.DATA", r.2)

def cmd_sharelog_shareerror (users : List USERS) (workers : List WORKERS)
    (workinfo : List WORKINFO) (st : KTable SHAREERRORS)
    (transfer : List (String × String)) (now : Tv) (cby ccode cinet : String) :
    String × KTable SHAREERRORS :=
  match cmd_sharelog_shareerrorE users workers workinfo st transfer now cby ccode cinet with
  | Except.error e => (e, st)
  | Except.ok r => r

/-! ## Transfer-map construction in breakdown -/

/-- One field into the transfer map (the duplicate check at lines 3730-3737
and 3762-3769): the name is truncated to the 63-byte TRANSFER name buffer; if
an entry with that name already exists the new item is freed and discarded
(first occurrence wins), otherwise it is linked. -/
def transfer_put (m : List (String × String)) (name value : String) :
    List (String × String) :=
  let n := strncpyTrunc 63 name
  if (m.lookup n).isSome then m else m ++ [(n, value)]

/-- The transfer map built from the field sequence a message produced (both
the dot-frame loop and the JSON iteration feed fields through the same
duplicate check). -/
def build_transfer (fields : List (String × String)) : List (String × String) :=
  fields.foldl (fun m f => transfer_put m f.1 f.2) []

/-- The subsequence keeping only the first occurrence of each (truncated)
name. -/
def keep_first (seen : List String) : List (String × String) → List (String × String)
  | [] => []
  | f :: fs =>
    if strncpyTrunc 63 f.1 ∈ seen then keep_first seen fs
    else f :: keep_first (strncpyTrunc 63 f.1 :: seen) fs

/-- The value of the first field whose truncated name is `n`. -/
def first_value (fields : List (String × String)) (n : String) : Option String :=
  (fields.find? (fun f => strncpyTrunc 63 f.1 == n)).map (fun f => f.2)

/-- `name=value` split of one dot-frame field; an `=`-less field gets the
empty value. -/
def split_field (f : String) : String × String :=
  let l := f.toList
  let name := l.takeWhile (fun c => c != '=')
  match l.drop name.length with
  | '=' :: v => (name.asString, v.asString)
  | _ => (name.asString, "")

/-- The dot-frame field loop of `breakdown`: split the data segment on FLDSEP
(0x02); the loop stops on the terminating NUL, so a trailing empty segment is
not produced; values pass through the 1023-byte TRANSFER value buffer. -/
def parse_dotframe (s : String) : List (String × String) :=
  if s = "" then []
  else
    let fs := s.splitOn fldsepStr
    let fs := if s.endsWith fldsepStr then fs.dropLast else fs
    fs.map (fun f =>
      let nv := split_field f
      (nv.1, strncpyTrunc 1023 nv.2))

/-! ## Helper lemmas -/

theorem getD_mem_or {α : Type} (l : List α) (d : α) (k : Nat) :
    l.getD k d ∈ l ∨ l.getD k d = d := by
  induction l generalizing k with
  | nil => right; simp [List.getD]
  | cons x xs ih =>
    cases k with
    | zero => left; simp [List.getD]
    | succ n =>
      have : (x :: xs).getD (n + 1) d = xs.getD n d := by simp [List.getD]
      rw [this]
      rcases ih n with h | h
      · left; exact List.mem_cons_of_mem _ h
      · right; exact h

theorem hexDigit_mem (n : Nat) : hexDigit n ∈ hexDigits := by
  rcases getD_mem_or hexDigits '0' (n % 16) with h | h
  · exact h
  · rw [hexDigit, h]; decide

theorem bin2hex64_length (h : Nat) : (bin2hex64 h).length = 16 := rfl

theorem bin2hex64_chars (h : Nat) : ∀ c ∈ (bin2hex64 h).toList, c ∈ hexDigits := by
  intro c hc
  have hc' : c ∈ ((bytesLE h).map byteHex).flatten := hc
  rcases List.mem_flatten.mp hc' with ⟨l, hl, hcl⟩
  rcases List.mem_map.mp hl with ⟨b, _, rfl⟩
  simp only [byteHex, List.mem_cons, List.not_mem_nil, or_false] at hcl
  rcases hcl with rfl | rfl <;> exact hexDigit_mem _

/-! ## C9 -/

/-- C9: every timestamp the text-to-timestamp codec parses from the DB is
clamped: a parsed time strictly greater than COMPARE_EXPIRY (148204512000 s)
becomes DEFAULT_EXPIRY (148204965966 s, 0 µs); otherwise the parsed seconds
and microseconds are stored unchanged. -/
theorem C9_txt_to_tv_clamp : ∀ (tim uS : Int),
    (tim > 148204512000 → txt_to_tv tim uS = ⟨148204965966, 0⟩) ∧
    (tim ≤ 148204512000 → txt_to_tv tim uS = ⟨tim, uS⟩) := by
  intro tim uS
  unfold txt_to_tv COMPARE_EXPIRY default_expiry DEFAULT_EXPIRY
  constructor
  · intro h; rw [if_pos h]
  · intro h; rw [if_neg (by omega)]

/-- Witness for C9 at concrete inputs on both sides of the bound. -/
theorem C9_witness :
    txt_to_tv 148204512001 5 = ⟨148204965966, 0⟩ ∧ txt_to_tv 100 7 = ⟨100, 7⟩ :=
  ⟨(C9_txt_to_tv_clamp 148204512001 5).1 (by norm_num),
   (C9_txt_to_tv_clamp 100 7).2 (by norm_num)⟩

/-! ## C10 -/

/-- C10: a payments request whose username passes field validation but matches
no live users row replies exactly "bad" and leaves the payments state
unchanged. -/
theorem C10_payments_unknown_user :
    ∀ (users : List USERS) (pst : KTable PAYMENTS)
      (transfer : List (String × String)) (tvfmt : Tv → String) (un : String),
      require_name_patt transfer "username" 3 userpatt = Except.ok un →
      find_users users un = none →
      cmd_payments users pst transfer tvfmt = ("bad", pst) := by
  intro users pst transfer tvfmt un h1 h2
  simp only [cmd_payments, h1, h2]

/-- Witness for C10: empty user table, validated username "alice". -/
theorem C10_witness :
    cmd_payments [] ⟨[], []⟩ [("username", "alice")] (fun _ => "") = ("bad", ⟨[], []⟩) :=
  C10_payments_unknown_user [] ⟨[], []⟩ [("username", "alice")] (fun _ => "")
    "alice" rfl rfl

/-! ## Add-operation behaviour lemmas -/

theorem users_add_spec (st : KTable USERS) (nid : Int) (ins : Bool)
    (u e p : String) (now : Tv) (cby ccode cinet : String) :
    ((users_add st nid ins u e p now cby ccode cinet).1 = true ↔ nid ≠ 0 ∧ ins = true) ∧
    ((users_add st nid ins u e p now cby ccode cinet).1 = false →
      (users_add st nid ins u e p now cby ccode cinet).2.store = st.store ∧
      (st.freeList ≠ [] →
        (users_add st nid ins u e p now cby ccode cinet).2.freeList.length =
          st.freeList.length)) ∧
    ((users_add st nid ins u e p now cby ccode cinet).1 = true →
      ∃ row, (users_add st nid ins u e p now cby ccode cinet).2.store = row :: st.store ∧
        row.userid = nid) := by
  obtain ⟨fl, store⟩ := st
  by_cases h0 : nid = 0 <;> cases ins <;> cases fl <;>
    simp [users_add, k_unlink_head, h0]

theorem workers_add_spec (st : KTable WORKERS) (nid : Int) (ins : Bool)
    (userid : Int) (wn dd ine int_ : String) (now : Tv) (cby ccode cinet : String) :
    (((workers_add st nid ins userid wn dd ine int_ now cby ccode cinet).1.isSome = true ↔
        nid ≠ 0 ∧ ins = true)) ∧
    ((workers_add st nid ins userid wn dd ine int_ now cby ccode cinet).1 = none →
      (workers_add st nid ins userid wn dd ine int_ now cby ccode cinet).2.store = st.store ∧
      (st.freeList ≠ [] →
        (workers_add st nid ins userid wn dd ine int_ now cby ccode cinet).2.freeList.length =
          st.freeList.length)) ∧
    ((workers_add st nid ins userid wn dd ine int_ now cby ccode cinet).1.isSome = true →
      ∃ row, (workers_add st nid ins userid wn dd ine int_ now cby ccode cinet).2.store =
        row :: st.store ∧ row.workerid = nid) := by
  obtain ⟨fl, store⟩ := st
  by_cases h0 : nid = 0 <;> cases ins <;> cases fl <;>
    simp [workers_add, k_unlink_head, h0] <;> split_ifs <;> rfl

theorem workinfo_add_spec (st : KTable WORKINFO) (ins : Bool)
    (wid pinst tt mh ph c1 c2 v b nt rw : String)
    (transfer : List (String × String)) (now : Tv) (cby ccode cinet : String) :
    (((workinfo_add st ins wid pinst tt mh ph c1 c2 v b nt rw transfer now cby ccode cinet).1
        = -1) ↔ (ins = false ∨ atoll wid = -1)) ∧
    ((workinfo_add st ins wid pinst tt mh ph c1 c2 v b nt rw transfer now cby ccode cinet).1
        = -1 →
      (workinfo_add st ins wid pinst tt mh ph c1 c2 v b nt rw transfer now cby
        ccode cinet).2.store = st.store ∧
      (st.freeList ≠ [] →
        (workinfo_add st ins wid pinst tt mh ph c1 c2 v b nt rw transfer now cby
          ccode cinet).2.freeList.length = st.freeList.length)) ∧
    ((workinfo_add st ins wid pinst tt mh ph c1 c2 v b nt rw transfer now cby ccode cinet).1
        ≠ -1 →
      ∃ row, (workinfo_add st ins wid pinst tt mh ph c1 c2 v b nt rw transfer now cby
          ccode cinet).2.store = row :: st.store ∧ row.workinfoid = atoll wid) := by
  obtain ⟨fl, store⟩ := st
  by_cases hw : atoll wid = -1 <;> cases ins <;> cases fl <;>
    simp [workinfo_add, k_unlink_head, hw]

theorem auths_add_spec (users : List USERS) (wst : KTable WORKERS) (ast : KTable AUTHS)
    (wnid : Int) (wins : Bool) (nid : Int) (ins : Bool)
    (transfer : List (String × String)) (un wn cid e1 ua : String)
    (now : Tv) (cby ccode cinet : String) :
    ((auths_add users wst ast wnid wins nid ins transfer un wn cid e1 ua now cby
        ccode cinet).1.isSome = true ↔
      (find_users users un).isSome = true ∧ nid ≠ 0 ∧ ins = true) ∧
    ((auths_add users wst ast wnid wins nid ins transfer un wn cid e1 ua now cby
        ccode cinet).1 = none →
      (auths_add users wst ast wnid wins nid ins transfer un wn cid e1 ua now cby
        ccode cinet).2.2.store = ast.store ∧
      (ast.freeList ≠ [] →
        (auths_add users wst ast wnid wins nid ins transfer un wn cid e1 ua now cby
          ccode cinet).2.2.freeList.length = ast.freeList.length)) ∧
    ((auths_add users wst ast wnid wins nid ins transfer un wn cid e1 ua now cby
        ccode cinet).1.isSome = true →
      ∃ row, (auths_add users wst ast wnid wins nid ins transfer un wn cid e1 ua now cby
        ccode cinet).2.2.store = row :: ast.store ∧ row.authid = nid) := by
  obtain ⟨fl, store⟩ := ast
  cases hfu : find_users users un <;> by_cases h0 : nid = 0 <;> cases ins <;> cases fl <;>
    simp [auths_add, k_unlink_head, hfu, h0]

theorem poolstats_add_spec (st : KTable POOLSTATS) (store : Bool) (ins : Bool)
    (transfer : List (String × String))
    (pinst us ws hr hr5 hr1 hr24 : String) (now : Tv) (cby ccode cinet : String) :
    (store = true →
      ((poolstats_add st store ins transfer pinst us ws hr hr5 hr1 hr24 now cby
          ccode cinet).1 = true ↔ ins = true) ∧
      ((poolstats_add st store ins transfer pinst us ws hr hr5 hr1 hr24 now cby
          ccode cinet).1 = false →
        (poolstats_add st store ins transfer pinst us ws hr hr5 hr1 hr24 now cby
          ccode cinet).2.store = st.store ∧
        (st.freeList ≠ [] →
          (poolstats_add st store ins transfer pinst us ws hr hr5 hr1 hr24 now cby
            ccode cinet).2.freeList.length = st.freeList.length))) ∧
    (store = false →
      (poolstats_add st store ins transfer pinst us ws hr hr5 hr1 hr24 now cby
        ccode cinet).1 = true) ∧
    ((poolstats_add st store ins transfer pinst us ws hr hr5 hr1 hr24 now cby
        ccode cinet).1 = true →
      ∃ row, (poolstats_add st store ins transfer pinst us ws hr hr5 hr1 hr24 now cby
        ccode cinet).2.store = row :: st.store) := by
  obtain ⟨fl, sto⟩ := st
  cases store <;> cases ins <;> cases fl <;>
    simp [poolstats_add, k_unlink_head]

/-! ## C1 -/

/-- C1 counterexample: `workinfo_add` with workinfoid "-1" and a SUCCESSFUL
DB insert still reports failure and does not link the row — the C uses -1 as
an in-band failure sentinel for its local `workinfoid`, so the claim's "linked
if and only if the DB insert succeeded" fails at this input. -/
theorem C1_counterexample :
    (workinfo_add ⟨[default], []⟩ true "-1" "pi" "tt" "mh" "ph" "c1" "c2" "v" "b" "nt"
      "0" [] ⟨100, 0⟩ "by" "code" "inet").1 = -1 ∧
    (workinfo_add ⟨[default], []⟩ true "-1" "pi" "tt" "mh" "ph" "c1" "c2" "v" "b" "nt"
      "0" [] ⟨100, 0⟩ "by" "code" "inet").2.store = [] :=
  ⟨rfl, rfl⟩

/-- C1 (amended): for users_add, workers_add, workinfo_add, auths_add and
poolstats_add with store=true, on ID-allocation or DB-insert failure the row
is not linked, the slot returns to its free list (same free-list length) and
the store is unchanged; the row is linked iff the DB insert succeeded — except
workinfo_add, which treats a parsed workinfoid of -1 as its failure sentinel
and does not link such a row even when the insert succeeds. -/
theorem C1_add_error_policy :
    (∀ (st : KTable USERS) (nid : Int) (ins : Bool) (u e p : String) (now : Tv)
        (cby ccode cinet : String),
      ((users_add st nid ins u e p now cby ccode cinet).1 = true ↔ nid ≠ 0 ∧ ins = true) ∧
      ((users_add st nid ins u e p now cby ccode cinet).1 = false →
        (users_add st nid ins u e p now cby ccode cinet).2.store = st.store ∧
        (st.freeList ≠ [] →
          (users_add st nid ins u e p now cby ccode cinet).2.freeList.length =
            st.freeList.length)) ∧
      ((users_add st nid ins u e p now cby ccode cinet).1 = true →
        ∃ row, (users_add st nid ins u e p now cby ccode cinet).2.store = row :: st.store ∧
          row.userid = nid)) ∧
    (∀ (st : KTable WORKERS) (nid : Int) (ins : Bool) (userid : Int)
        (wn dd ine int_ : String) (now : Tv) (cby ccode cinet : String),
      (((workers_add st nid ins userid wn dd ine int_ now cby ccode cinet).1.isSome = true ↔
          nid ≠ 0 ∧ ins = true)) ∧
      ((workers_add st nid ins userid wn dd ine int_ now cby ccode cinet).1 = none →
        (workers_add st nid ins userid wn dd ine int_ now cby ccode cinet).2.store =
          st.store ∧
        (st.freeList ≠ [] →
          (workers_add st nid ins userid wn dd ine int_ now cby
            ccode cinet).2.freeList.length = st.freeList.length)) ∧
      ((workers_add st nid ins userid wn dd ine int_ now cby ccode cinet).1.isSome = true →
        ∃ row, (workers_add st nid ins userid wn dd ine int_ now cby ccode cinet).2.store =
          row :: st.store ∧ row.workerid = nid)) ∧
    (∀ (st : KTable WORKINFO) (ins : Bool) (wid pinst tt mh ph c1 c2 v b nt rw : String)
        (transfer : List (String × String)) (now : Tv) (cby ccode cinet : String),
      (((workinfo_add st ins wid pinst tt mh ph c1 c2 v b nt rw transfer now cby
          ccode cinet).1 = -1) ↔ (ins = false ∨ atoll wid = -1)) ∧
      ((workinfo_add st ins wid pinst tt mh ph c1 c2 v b nt rw transfer now cby
          ccode cinet).1 = -1 →
        (workinfo_add st ins wid pinst tt mh ph c1 c2 v b nt rw transfer now cby
          ccode cinet).2.store = st.store ∧
        (st.freeList ≠ [] →
          (workinfo_add st ins wid pinst tt mh ph c1 c2 v b nt rw transfer now cby
            ccode cinet).2.freeList.length = st.freeList.length)) ∧
      ((workinfo_add st ins wid pinst tt mh ph c1 c2 v b nt rw transfer now cby
          ccode cinet).1 ≠ -1 →
        ∃ row, (workinfo_add st ins wid pinst tt mh ph c1 c2 v b nt rw transfer now cby
          ccode cinet).2.store = row :: st.store ∧ row.workinfoid = atoll wid)) ∧
    (∀ (users : List USERS) (wst : KTable WORKERS) (ast : KTable AUTHS)
        (wnid : Int) (wins : Bool) (nid : Int) (ins : Bool)
        (transfer : List (String × String)) (un wn cid e1 ua : String)
        (now : Tv) (cby ccode cinet : String),
      ((auths_add users wst ast wnid wins nid ins transfer un wn cid e1 ua now cby
          ccode cinet).1.isSome = true ↔
        (find_users users un).isSome = true ∧ nid ≠ 0 ∧ ins = true) ∧
      ((auths_add users wst ast wnid wins nid ins transfer un wn cid e1 ua now cby
          ccode cinet).1 = none →
        (auths_add users wst ast wnid wins nid ins transfer un wn cid e1 ua now cby
          ccode cinet).2.2.store = ast.store ∧
        (ast.freeList ≠ [] →
          (auths_add users wst ast wnid wins nid ins transfer un wn cid e1 ua now cby
            ccode cinet).2.2.freeList.length = ast.freeList.length)) ∧
      ((auths_add users wst ast wnid wins nid ins transfer un wn cid e1 ua now cby
          ccode cinet).1.isSome = true →
        ∃ row, (auths_add users wst ast wnid wins nid ins transfer un wn cid e1 ua now cby
          ccode cinet).2.2.store = row :: ast.store ∧ row.authid = nid)) ∧
    (∀ (st : KTable POOLSTATS) (store : Bool) (ins : Bool)
        (transfer : List (String × String)) (pinst us ws hr hr5 hr1 hr24 : String)
        (now : Tv) (cby ccode cinet : String),
      (store = true →
        ((poolstats_add st store ins transfer pinst us ws hr hr5 hr1 hr24 now cby
            ccode cinet).1 = true ↔ ins = true) ∧
        ((poolstats_add st store ins transfer pinst us ws hr hr5 hr1 hr24 now cby
            ccode cinet).1 = false →
          (poolstats_add st store ins transfer pinst us ws hr hr5 hr1 hr24 now cby
            ccode cinet).2.store = st.store ∧
          (st.freeList ≠ [] →
            (poolstats_add st store ins transfer pinst us ws hr hr5 hr1 hr24 now cby
              ccode cinet).2.freeList.length = st.freeList.length))) ∧
      (store = false →
        (poolstats_add st store ins transfer pinst us ws hr hr5 hr1 hr24 now cby
          ccode cinet).1 = true) ∧
      ((poolstats_add st store ins transfer pinst us ws hr hr5 hr1 hr24 now cby
          ccode cinet).1 = true →
        ∃ row, (poolstats_add st store ins transfer pinst us ws hr hr5 hr1 hr24 now cby
          ccode cinet).2.store = row :: st.store)) :=
  ⟨users_add_spec, workers_add_spec, workinfo_add_spec, auths_add_spec, poolstats_add_spec⟩

/-- Witness for C1: a users_add whose ID allocation failed leaves the (empty)
store unchanged. -/
theorem C1_witness :
    (users_add ⟨[default], []⟩ 0 true "u" "e" "p" ⟨0, 0⟩ "b" "c" "i").2.store = [] :=
  ((C1_add_error_policy.1 ⟨[default], []⟩ 0 true "u" "e" "p" ⟨0, 0⟩ "b" "c" "i").2.1 rfl).1

/-! ## C5 -/

/-- C5 counterexample: the userid increment can be exactly 666 (`rand() % 334
= 0`), so a created users row can be exactly 666 — not at least 667 — greater
than the previous lastid. -/
theorem C5_counterexample :
    userid_increment 0 = 666 ∧
    nextid_value 5000 (userid_increment 0) < 5000 + 667 := by decide

/-- C5 (amended): the userid allocation increments lastid by `666 + rand() %
334`, i.e. by a value in [666, 999]; workerid and authid allocations increment
by exactly 1; every successfully created users row has userid at least 666
greater than the previous lastid. -/
theorem C5_id_increments :
    (∀ r : Nat, 666 ≤ userid_increment r ∧ userid_increment r ≤ 999) ∧
    workerid_increment = 1 ∧ authid_increment = 1 ∧
    (∀ (st : KTable USERS) (lastid : Int) (r : Nat) (ins : Bool) (u e p : String)
        (now : Tv) (cby ccode cinet : String),
      (users_add st (nextid_value lastid (userid_increment r)) ins u e p now cby
          ccode cinet).1 = true →
      ∃ row, (users_add st (nextid_value lastid (userid_increment r)) ins u e p now cby
          ccode cinet).2.store = row :: st.store ∧
        row.userid = nextid_value lastid (userid_increment r) ∧
        lastid + 666 ≤ row.userid) := by
  refine ⟨?_, rfl, rfl, ?_⟩
  · intro r
    unfold userid_increment
    have h : r % 334 < 334 := Nat.mod_lt _ (by norm_num)
    omega
  · intro st lastid r ins u e p now cby ccode cinet h
    obtain ⟨row, hst, huid⟩ := (users_add_spec st _ ins u e p now cby ccode cinet).2.2 h
    refine ⟨row, hst, huid, ?_⟩
    rw [huid]
    unfold nextid_value userid_increment
    omega

/-- Witness for C5 at rand draw 0 and lastid 1. -/
theorem C5_witness :
    (666 ≤ userid_increment 3 ∧ userid_increment 3 ≤ 999) ∧
    ∃ row, (users_add ⟨[default], []⟩ (nextid_value 1 (userid_increment 0)) true "u" "e"
        "p" ⟨0, 0⟩ "b" "c" "i").2.store = row :: ([] : List USERS) ∧
      row.userid = nextid_value 1 (userid_increment 0) ∧ 1 + 666 ≤ row.userid :=
  ⟨C5_id_increments.1 3,
   C5_id_increments.2.2.2 ⟨[default], []⟩ 1 0 true "u" "e" "p" ⟨0, 0⟩ "b" "c" "i" rfl⟩

/-! ## C4 -/

set_option maxRecDepth 40000 in
/-- C4 counterexample: with `username` of 70 characters the stored
secondaryuserid is the hash of the 63-char-truncated literal (the `tohash`
buffer is `char[64]`), not the hash of the full literal
`username&#emailaddress`. -/
theorem C4_counterexample :
    secondaryuserid_of
        "aaaaaaaaaaaaaaaaaaaaaaaaaaaaaaaaaaaaaaaaaaaaaaaaaaaaaaaaaaaaaaaaaaaaaa"
        "b@c.de" ≠
      bin2hex64 (hashBer
        (("aaaaaaaaaaaaaaaaaaaaaaaaaaaaaaaaaaaaaaaaaaaaaaaaaaaaaaaaaaaaaaaaaaaaaa" ++
          "&#" ++ "b@c.de").toList)) := by
  decide

/-- C4 (amended): secondaryuserid is a deterministic function of
(username, emailaddress): the Bernstein-style hash of the first 63 characters
of the literal `username&#emailaddress`, rendered as exactly 16 lowercase
hexadecimal characters. -/
theorem C4_secondaryuserid :
    ∀ u e : String,
      secondaryuserid_of u e = bin2hex64 (hashBer (((u ++ "&#" ++ e).toList).take 63)) ∧
      (secondaryuserid_of u e).length = 16 ∧
      (∀ c ∈ (secondaryuserid_of u e).toList, c ∈ hexDigits) := by
  intro u e
  exact ⟨rfl, bin2hex64_length _, bin2hex64_chars _⟩

/-- Witness for C4 at the spec's S1 inputs. -/
theorem C4_witness :
    secondaryuserid_of "alice" "alice@example.com" =
      bin2hex64 (hashBer ((("alice" ++ "&#" ++ "alice@example.com").toList).take 63)) ∧
    (secondaryuserid_of "alice" "alice@example.com").length = 16 ∧
    'b' ∈ hexDigits :=
  ⟨(C4_secondaryuserid "alice" "alice@example.com").1,
   (C4_secondaryuserid "alice" "alice@example.com").2.1,
   (C4_secondaryuserid "alice" "alice@example.com").2.2 'b' (by decide)⟩

/-! ## C3 -/

/-- C3 (code bug): the store decision of cmd_poolstats.  On the spec's S5
scenario the first poolstats for "main" stores; one 60 s later does not
(as claimed); but one 600 s (> STATS_PER = 570 s) later also does NOT store,
against the claim: the C compares the candidate createdate against
`row.createdate`, which still holds the `date_eot` lookup-key sentinel rather
than the found row's createdate, so once any row sorts before the key the
comparison is hugely negative.  The general conjunct shows the decision is
false for every clamped timestamp whenever a predecessor row exists. -/
theorem C3_poolstats_throttle_eval :
    poolstats_store_decision [] "main" ⟨1000, 0⟩ = true ∧
    poolstats_store_decision
      [{ (default : POOLSTATS) with
         poolinstance := "main",
         simple := { (default : SimpleFields) with createdate := ⟨1000, 0⟩ } }]
      "main" ⟨1060, 0⟩ = false ∧
    poolstats_store_decision
      [{ (default : POOLSTATS) with
         poolinstance := "main",
         simple := { (default : SimpleFields) with createdate := ⟨1000, 0⟩ } }]
      "main" ⟨1600, 0⟩ = false ∧
    (∀ (rows : List POOLSTATS) (pinst : String) (cd : Tv),
      (find_before_poolstats rows (strncpyTrunc 256 pinst) date_eot).isSome = true →
      cd.sec ≤ 148204965966 → cd.usec < 4294967296 →
      poolstats_store_decision rows pinst cd = false) := by
  refine ⟨rfl, rfl, rfl, ?_⟩
  intro rows pinst cd hfound hsec husec
  unfold poolstats_store_decision
  cases h : find_before_poolstats rows (strncpyTrunc 256 pinst) date_eot with
  | none => rw [h] at hfound; simp at hfound
  | some b =>
    simp only [decide_eq_false_iff_not, not_lt, tvdiffUs, date_eot, DATE_S_EOT,
      STATS_PER_US]
    omega

/-- Witness for C3's general conjunct: any predecessor row forces a
no-store decision even 600 s later. -/
theorem C3_witness :
    poolstats_store_decision
      [{ (default : POOLSTATS) with
         poolinstance := "main",
         simple := { (default : SimpleFields) with createdate := ⟨1000, 0⟩ } }]
      "main" ⟨1600, 0⟩ = false :=
  C3_poolstats_throttle_eval.2.2.2
    [{ (default : POOLSTATS) with
       poolinstance := "main",
       simple := { (default : SimpleFields) with createdate := ⟨1000, 0⟩ } }]
    "main" ⟨1600, 0⟩ rfl (by norm_num) (by norm_num)

/-! ## C6 -/

/-- C6 (code bug): workers_add with input idlenotificationtime "100" (above
the maximum 60) on a fresh zeroed slot links a row whose idlenotificationtime
is 0 — the `nottime > IDLENOTIFICATIONTIME_MAX` branch assigns
`row->idlenotificationtime`, the recycled slot's unwritten field, instead of
clamping into [10, 60]. -/
theorem C6_workers_add_eval :
    ((workers_add ⟨[default], []⟩ 5 true 1 "alice.rig1" "" "" "100" ⟨0, 0⟩ "b" "c"
      "i").1).isSome = true ∧
    ((workers_add ⟨[default], []⟩ 5 true 1 "alice.rig1" "" "" "100" ⟨0, 0⟩ "b" "c"
      "i").2.store.map (fun w => w.idlenotificationtime)) = [0] ∧
    ¬ ((10 : Int) ≤ 0 ∧ (0 : Int) ≤ 60) := by
  exact ⟨rfl, rfl, by decide⟩

/-! ## C7 -/

/-- C7 counterexample: the stored hash compared with `strcasecmp`, so a
supplied hash differing from the stored one only in letter case — i.e. a hash
other than the stored one — still gets "ok". -/
theorem C7_counterexample :
    cmd_chkpass
      [{ (default : USERS) with
         username := "alice",
         passwordhash := "abcdefabcdefabcdefabcdefabcdefabcdefabcdefabcdefabcdefabcdefabcd",
         hist := { (default : HistFields) with expirydate := default_expiry } }]
      [("username", "alice"),
       ("passwordhash",
        "ABCDEFABCDEFABCDEFABCDEFABCDEFABCDEFABCDEFABCDEFABCDEFABCDEFABCD")] = "ok" ∧
    ("ABCDEFABCDEFABCDEFABCDEFABCDEFABCDEFABCDEFABCDEFABCDEFABCDEFABCD" : String) ≠
      "abcdefabcdefabcdefabcdefabcdefabcdefabcdefabcdefabcdefabcdefabcd" := by
  exact ⟨rfl, by decide⟩

/-- C7 (amended): for a validated chkpass request, the reply is "ok" exactly
when the supplied hash equals the stored hash up to ASCII case
(`strcasecmp`), "bad" otherwise, and "bad" when the username matches no live
users row. -/
theorem C7_chkpass :
    ∀ (users : List USERS) (transfer : List (String × String)) (un ph : String),
      require_name_patt transfer "username" 3 userpatt = Except.ok un →
      require_name_patt transfer "passwordhash" 64 hashpatt = Except.ok ph →
      (find_users users un = none → cmd_chkpass users transfer = "bad") ∧
      (∀ u, find_users users un = some u →
        cmd_chkpass users transfer =
          if strcaseEq ph u.passwordhash then "ok" else "bad") := by
  intro users transfer un ph h1 h2
  constructor
  · intro h3
    simp only [cmd_chkpass, h1, h2, h3]
  · intro u h3
    simp only [cmd_chkpass, h1, h2, h3]

/-- Witness for C7: validated request, no matching user, reply "bad". -/
theorem C7_witness :
    cmd_chkpass []
      [("username", "alice"),
       ("passwordhash",
        "abcdefabcdefabcdefabcdefabcdefabcdefabcdefabcdefabcdefabcdefabcd")] = "bad" :=
  (C7_chkpass []
    [("username", "alice"),
     ("passwordhash",
      "abcdefabcdefabcdefabcdefabcdefabcdefabcdefabcdefabcdefabcdefabcd")]
    "alice" "abcdefabcdefabcdefabcdefabcdefabcdefabcdefabcdefabcdefabcdefabcd"
    rfl rfl).1 rfl

/-! ## C2 -/

theorem shares_add_spec (users : List USERS) (workers : List WORKERS)
    (workinfo : List WORKINFO) (st : KTable SHARES) (transfer : List (String × String))
    (wid un wn cid e1 n2 nc df sf su : String) (now : Tv) (cby ccode cinet : String) :
    ((shares_add users workers workinfo st transfer wid un wn cid e1 n2 nc df sf su
        now cby ccode cinet).1 = true ↔
      ∃ u, find_users users un = some u ∧
        (find_workinfo workinfo (atoll wid)).isSome = true ∧
        (find_workers workers u.userid (strncpyTrunc 256 wn)).isSome = true) ∧
    ((shares_add users workers workinfo st transfer wid un wn cid e1 n2 nc df sf su
        now cby ccode cinet).1 = false →
      (shares_add users workers workinfo st transfer wid un wn cid e1 n2 nc df sf su
        now cby ccode cinet).2.store = st.store) ∧
    ((shares_add users workers workinfo st transfer wid un wn cid e1 n2 nc df sf su
        now cby ccode cinet).1 = true →
      ∃ row, (shares_add users workers workinfo st transfer wid un wn cid e1 n2 nc df
        sf su now cby ccode cinet).2.store = row :: st.store) := by
  obtain ⟨fl, sto⟩ := st
  cases hfu : find_users users un with
  | none => cases fl <;> simp [shares_add, k_unlink_head, hfu]
  | some u =>
    cases hwi : find_workinfo workinfo (atoll wid) with
    | none => cases fl <;> simp [shares_add, k_unlink_head, hfu, hwi]
    | some w =>
      cases hwk : find_workers workers u.userid (strncpyTrunc 256 wn) with
      | none => cases fl <;> simp [shares_add, k_unlink_head, hfu, hwi, hwk]
      | some w2 => cases fl <;> simp [shares_add, k_unlink_head, hfu, hwi, hwk]

theorem shareerrors_add_spec (users : List USERS) (workers : List WORKERS)
    (workinfo : List WORKINFO) (st : KTable SHAREERRORS)
    (transfer : List (String × String))
    (wid un wn cid en er su : String) (now : Tv) (cby ccode cinet : String) :
    ((shareerrors_add users workers workinfo st transfer wid un wn cid en er su
        now cby ccode cinet).1 = true ↔
      ∃ u, find_users users un = some u ∧
        (find_workinfo workinfo (atoll wid)).isSome = true ∧
        (find_workers workers u.userid (strncpyTrunc 256 wn)).isSome = true) ∧
    ((shareerrors_add users workers workinfo st transfer wid un wn cid en er su
        now cby ccode cinet).1 = false →
      (shareerrors_add users workers workinfo st transfer wid un wn cid en er su
        now cby ccode cinet).2.store = st.store) ∧
    ((shareerrors_add users workers workinfo st transfer wid un wn cid en er su
        now cby ccode cinet).1 = true →
      ∃ row, (shareerrors_add users workers workinfo st transfer wid un wn cid en er
        su now cby ccode cinet).2.store = row :: st.store) := by
  obtain ⟨fl, sto⟩ := st
  cases hfu : find_users users un with
  | none => cases fl <;> simp [shareerrors_add, k_unlink_head, hfu]
  | some u =>
    cases hwi : find_workinfo workinfo (atoll wid) with
    | none => cases fl <;> simp [shareerrors_add, k_unlink_head, hfu, hwi]
    | some w =>
      cases hwk : find_workers workers u.userid (strncpyTrunc 256 wn) with
      | none => cases fl <;> simp [shareerrors_add, k_unlink_head, hfu, hwi, hwk]
      | some w2 => cases fl <;> simp [shareerrors_add, k_unlink_head, hfu, hwi, hwk]

theorem cmd_sharelog_shares_bad (users : List USERS) (workers : List WORKERS)
    (workinfo : List WORKINFO) (st : KTable SHARES)
    (transfer : List (String × String)) (now : Tv) (cby ccode cinet : String)
    (wid un wn cid e1 n2 nc df sf su : String)
    (h1 : require_name transfer "workinfoid" 1 = Except.ok wid)
    (h2 : require_name transfer "username" 1 = Except.ok un)
    (h3 : require_name transfer "workername" 1 = Except.ok wn)
    (h4 : require_name transfer "clientid" 1 = Except.ok cid)
    (h5 : require_name transfer "enonce1" 1 = Except.ok e1)
    (h6 : require_name transfer "nonce2" 1 = Except.ok n2)
    (h7 : require_name transfer "nonce" 1 = Except.ok nc)
    (h8 : require_name transfer "diff" 1 = Except.ok df)
    (h9 : require_name transfer "sdiff" 1 = Except.ok sf)
    (h10 : require_name transfer "secondaryuserid" 1 = Except.ok su)
    (hfail : (shares_add users workers workinfo st transfer wid un wn cid e1 n2 nc df
      sf su now cby ccode cinet).1 = false) :
    cmd_sharelog_shares users workers workinfo st transfer now cby ccode cinet =
      ("bad.DATA",
       (shares_add users workers workinfo st transfer wid un wn cid e1 n2 nc df sf su
         now cby ccode cinet).2) := by
  simp only [cmd_sharelog_shares, cmd_sharelog_sharesE, h1, h2, h3, h4, h5, h6, h7,
    h8, h9, h10, hfail, Bool.false_eq_true, if_false]

theorem cmd_sharelog_shareerror_bad (users : List USERS) (workers : List WORKERS)
    (workinfo : List WORKINFO) (st : KTable SHAREERRORS)
    (transfer : List (String × String)) (now : Tv) (cby ccode cinet : String)
    (wid un wn cid en er su : String)
    (h1 : require_name transfer "workinfoid" 1 = Except.ok wid)
    (h2 : require_name transfer "username" 1 = Except.ok un)
    (h3 : require_name transfer "workername" 1 = Except.ok wn)
    (h4 : require_name transfer "clientid" 1 = Except.ok cid)
    (h5 : require_name transfer "errno" 1 = Except.ok en)
    (h6 : require_name transfer "error" 1 = Except.ok er)
    (h7 : require_name transfer "secondaryuserid" 1 = Except.ok su)
    (hfail : (shareerrors_add users workers workinfo st transfer wid un wn cid en er su
      now cby ccode cinet).1 = false) :
    cmd_sharelog_shareerror users workers workinfo st transfer now cby ccode cinet =
      ("bad.DATA",
       (shareerrors_add users workers workinfo st transfer wid un wn cid en er su
         now cby ccode cinet).2) := by
  simp only [cmd_sharelog_shareerror, cmd_sharelog_shareerrorE, h1, h2, h3, h4, h5,
    h6, h7, hfail, Bool.false_eq_true, if_false]

/-- C2 counterexample: a share whose createdate (50 s) precedes the
createdate (100 s) of the workers row it references is still accepted into
memory — the code checks only that the references resolve at processing time,
never that they existed before the share's createdate. -/
theorem C2_counterexample :
    (shares_add
      [{ (default : USERS) with
         userid := 1, username := "alice",
         hist := { (default : HistFields) with expirydate := default_expiry } }]
      [{ (default : WORKERS) with
         userid := 1, workername := "alice.rig1",
         hist := { (default : HistFields) with
                   createdate := ⟨100, 0⟩, expirydate := default_expiry } }]
      [{ (default : WORKINFO) with
         workinfoid := 7,
         hist := { (default : HistFields) with expirydate := default_expiry } }]
      ⟨[default], []⟩ [] "7" "alice" "alice.rig1" "3" "e1" "n2" "n" "1" "1" "s"
      ⟨50, 0⟩ "by" "code" "inet").1 = true ∧
    ((shares_add
      [{ (default : USERS) with
         userid := 1, username := "alice",
         hist := { (default : HistFields) with expirydate := default_expiry } }]
      [{ (default : WORKERS) with
         userid := 1, workername := "alice.rig1",
         hist := { (default : HistFields) with
                   createdate := ⟨100, 0⟩, expirydate := default_expiry } }]
      [{ (default : WORKINFO) with
         workinfoid := 7,
         hist := { (default : HistFields) with expirydate := default_expiry } }]
      ⟨[default], []⟩ [] "7" "alice" "alice.rig1" "3" "e1" "n2" "n" "1" "1" "s"
      ⟨50, 0⟩ "by" "code" "inet").2.store.map (fun s => s.hist.createdate)) = [⟨50, 0⟩] ∧
    ((50 : Int) < 100) := by
  exact ⟨rfl, rfl, by norm_num⟩

/-- C2 (amended): a shares (resp. shareerrors) row is accepted into memory iff
the username resolves to a live users row, the workinfoid resolves to a
workinfo row and (userid, workername) resolves to a live workers row, all at
processing time (no comparison against the share's createdate); on rejection
the store is unchanged and the sharelog handler replies "bad.DATA". -/
theorem C2_share_ref_integrity :
    (∀ (users : List USERS) (workers : List WORKERS) (workinfo : List WORKINFO)
        (st : KTable SHARES) (transfer : List (String × String))
        (wid un wn cid e1 n2 nc df sf su : String) (now : Tv) (cby ccode cinet : String),
      ((shares_add users workers workinfo st transfer wid un wn cid e1 n2 nc df sf su
          now cby ccode cinet).1 = true ↔
        ∃ u, find_users users un = some u ∧
          (find_workinfo workinfo (atoll wid)).isSome = true ∧
          (find_workers workers u.userid (strncpyTrunc 256 wn)).isSome = true) ∧
      ((shares_add users workers workinfo st transfer wid un wn cid e1 n2 nc df sf su
          now cby ccode cinet).1 = false →
        (shares_add users workers workinfo st transfer wid un wn cid e1 n2 nc df sf su
          now cby ccode cinet).2.store = st.store) ∧
      ((shares_add users workers workinfo st transfer wid un wn cid e1 n2 nc df sf su
          now cby ccode cinet).1 = true →
        ∃ row, (shares_add users workers workinfo st transfer wid un wn cid e1 n2 nc
          df sf su now cby ccode cinet).2.store = row :: st.store)) ∧
    (∀ (users : List USERS) (workers : List WORKERS) (workinfo : List WORKINFO)
        (st : KTable SHAREERRORS) (transfer : List (String × String))
        (wid un wn cid en er su : String) (now : Tv) (cby ccode cinet : String),
      ((shareerrors_add users workers workinfo st transfer wid un wn cid en er su
          now cby ccode cinet).1 = true ↔
        ∃ u, find_users users un = some u ∧
          (find_workinfo workinfo (atoll wid)).isSome = true ∧
          (find_workers workers u.userid (strncpyTrunc 256 wn)).isSome = true) ∧
      ((shareerrors_add users workers workinfo st transfer wid un wn cid en er su
          now cby ccode cinet).1 = false →
        (shareerrors_add users workers workinfo st transfer wid un wn cid en er su
          now cby ccode cinet).2.store = st.store) ∧
      ((shareerrors_add users workers workinfo st transfer wid un wn cid en er su
          now cby ccode cinet).1 = true →
        ∃ row, (shareerrors_add users workers workinfo st transfer wid un wn cid en er
          su now cby ccode cinet).2.store = row :: st.store)) ∧
    (∀ (users : List USERS) (workers : List WORKERS) (workinfo : List WORKINFO)
        (st : KTable SHARES) (transfer : List (String × String)) (now : Tv)
        (cby ccode cinet : String) (wid un wn cid e1 n2 nc df sf su : String),
      require_name transfer "workinfoid" 1 = Except.ok wid →
      require_name transfer "username" 1 = Except.ok un →
      require_name transfer "workername" 1 = Except.ok wn →
      require_name transfer "clientid" 1 = Except.ok cid →
      require_name transfer "enonce1" 1 = Except.ok e1 →
      require_name transfer "nonce2" 1 = Except.ok n2 →
      require_name transfer "nonce" 1 = Except.ok nc →
      require_name transfer "diff" 1 = Except.ok df →
      require_name transfer "sdiff" 1 = Except.ok sf →
      require_name transfer "secondaryuserid" 1 = Except.ok su →
      (shares_add users workers workinfo st transfer wid un wn cid e1 n2 nc df sf su
        now cby ccode cinet).1 = false →
      cmd_sharelog_shares users workers workinfo st transfer now cby ccode cinet =
        ("bad.DATA",
         (shares_add users workers workinfo st transfer wid un wn cid e1 n2 nc df sf
           su now cby ccode cinet).2)) ∧
    (∀ (users : List USERS) (workers : List WORKERS) (workinfo : List WORKINFO)
        (st : KTable SHAREERRORS) (transfer : List (String × String)) (now : Tv)
        (cby ccode cinet : String) (wid un wn cid en er su : String),
      require_name transfer "workinfoid" 1 = Except.ok wid →
      require_name transfer "username" 1 = Except.ok un →
      require_name transfer "workername" 1 = Except.ok wn →
      require_name transfer "clientid" 1 = Except.ok cid →
      require_name transfer "errno" 1 = Except.ok en →
      require_name transfer "error" 1 = Except.ok er →
      require_name transfer "secondaryuserid" 1 = Except.ok su →
      (shareerrors_add users workers workinfo st transfer wid un wn cid en er su
        now cby ccode cinet).1 = false →
      cmd_sharelog_shareerror users workers workinfo st transfer now cby ccode cinet =
        ("bad.DATA",
         (shareerrors_add users workers workinfo st transfer wid un wn cid en er su
           now cby ccode cinet).2)) := by
  refine ⟨shares_add_spec, shareerrors_add_spec, ?_, ?_⟩
  · intro users workers workinfo st transfer now cby ccode cinet wid un wn cid e1 n2
      nc df sf su h1 h2 h3 h4 h5 h6 h7 h8 h9 h10 hfail
    exact cmd_sharelog_shares_bad users workers workinfo st transfer now cby ccode
      cinet wid un wn cid e1 n2 nc df sf su h1 h2 h3 h4 h5 h6 h7 h8 h9 h10 hfail
  · intro users workers workinfo st transfer now cby ccode cinet wid un wn cid en er
      su h1 h2 h3 h4 h5 h6 h7 hfail
    exact cmd_sharelog_shareerror_bad users workers workinfo st transfer now cby ccode
      cinet wid un wn cid en er su h1 h2 h3 h4 h5 h6 h7 hfail

/-- Witness for C2: a share referencing a nonexistent workinfo row 9999 is
rejected with "bad.DATA" and adds nothing to memory. -/
theorem C2_witness :
    cmd_sharelog_shares [] [] [] ⟨[default], []⟩
      [("workinfoid", "9999"), ("username", "alice"), ("workername", "alice.rig1"),
       ("clientid", "3"), ("enonce1", "e1"), ("nonce2", "n2"), ("nonce", "n"),
       ("diff", "1"), ("sdiff", "1"), ("secondaryuserid", "s")]
      ⟨50, 0⟩ "by" "code" "inet" =
      ("bad.DATA",
       (shares_add [] [] [] ⟨[default], []⟩
        [("workinfoid", "9999"), ("username", "alice"), ("workername", "alice.rig1"),
         ("clientid", "3"), ("enonce1", "e1"), ("nonce2", "n2"), ("nonce", "n"),
         ("diff", "1"), ("sdiff", "1"), ("secondaryuserid", "s")]
        "9999" "alice" "alice.rig1" "3" "e1" "n2" "n" "1" "1" "s"
        ⟨50, 0⟩ "by" "code" "inet").2) :=
  C2_share_ref_integrity.2.2.1 [] [] [] ⟨[default], []⟩
    [("workinfoid", "9999"), ("username", "alice"), ("workername", "alice.rig1"),
     ("clientid", "3"), ("enonce1", "e1"), ("nonce2", "n2"), ("nonce", "n"),
     ("diff", "1"), ("sdiff", "1"), ("secondaryuserid", "s")]
    ⟨50, 0⟩ "by" "code" "inet" "9999" "alice" "alice.rig1" "3" "e1" "n2" "n" "1" "1"
    "s" rfl rfl rfl rfl rfl rfl rfl rfl rfl rfl rfl

/-! ## C8 -/

theorem lookup_append (l1 l2 : List (String × String)) (n : String) :
    (l1 ++ l2).lookup n =
      match l1.lookup n with
      | some v => some v
      | none => l2.lookup n := by
  induction l1 with
  | nil => simp [List.lookup]
  | cons a t ih =>
    obtain ⟨k, v⟩ := a
    by_cases h : n = k
    · subst h; simp [List.lookup]
    · have hb : (n == k) = false := by simp [h]
      simp [List.lookup, hb, ih]

theorem build_transfer_lookup_aux (fields : List (String × String)) :
    ∀ (m : List (String × String)) (n : String),
      (fields.foldl (fun acc f => transfer_put acc f.1 f.2) m).lookup n =
        match m.lookup n with
        | some v => some v
        | none => first_value fields n := by
  induction fields with
  | nil =>
    intro m n
    cases h : m.lookup n <;> simp [first_value, h]
  | cons f fs ih =>
    intro m n
    rw [List.foldl_cons, ih]
    by_cases hdup : (m.lookup (strncpyTrunc 63 f.1)).isSome = true
    · have hput : transfer_put m f.1 f.2 = m := by simp [transfer_put, hdup]
      rw [hput]
      by_cases hn : strncpyTrunc 63 f.1 = n
      · obtain ⟨v, hv⟩ := Option.isSome_iff_exists.mp hdup
        rw [hn] at hv
        rw [hv]
      · have : first_value (f :: fs) n = first_value fs n := by
          have hb : (strncpyTrunc 63 f.1 == n) = false := by simp [hn]
          simp [first_value, List.find?, hb]
        rw [this]
    · have hput : transfer_put m f.1 f.2 = m ++ [(strncpyTrunc 63 f.1, f.2)] := by
        simp only [Bool.not_eq_true] at hdup
        simp [transfer_put, hdup]
      rw [hput, lookup_append]
      cases hm : m.lookup n with
      | some v => rfl
      | none =>
        by_cases hn : n = strncpyTrunc 63 f.1
        · have hb : (n == strncpyTrunc 63 f.1) = true := by simp [hn]
          have hb' : (strncpyTrunc 63 f.1 == n) = true := by simp [hn]
          simp [List.lookup, hb, first_value, List.find?, hb']
        · have hb : (n == strncpyTrunc 63 f.1) = false := by simp [hn]
          have hb' : (strncpyTrunc 63 f.1 == n) = false := by
            rw [beq_eq_false_iff_ne]
            exact fun h => hn h.symm
          simp [List.lookup, hb, first_value, List.find?, hb']

theorem keep_first_build_aux (fields : List (String × String)) :
    ∀ (m : List (String × String)) (seen : List String),
      (∀ x, (m.lookup x).isSome = true ↔ x ∈ seen) →
      fields.foldl (fun acc f => transfer_put acc f.1 f.2) m =
        (keep_first seen fields).foldl (fun acc f => transfer_put acc f.1 f.2) m := by
  induction fields with
  | nil => intro m seen hinv; simp [keep_first]
  | cons f fs ih =>
    intro m seen hinv
    by_cases hseen : strncpyTrunc 63 f.1 ∈ seen
    · have hl : (m.lookup (strncpyTrunc 63 f.1)).isSome = true := (hinv _).mpr hseen
      have hput : transfer_put m f.1 f.2 = m := by simp [transfer_put, hl]
      simp only [keep_first, if_pos hseen, List.foldl_cons, hput]
      exact ih m seen hinv
    · have hl : (m.lookup (strncpyTrunc 63 f.1)).isSome = false := by
        cases h : (m.lookup (strncpyTrunc 63 f.1)).isSome
        · rfl
        · exact absurd ((hinv _).mp h) hseen
      have hput : transfer_put m f.1 f.2 = m ++ [(strncpyTrunc 63 f.1, f.2)] := by
        simp [transfer_put, hl]
      simp only [keep_first, if_neg hseen, List.foldl_cons, hput]
      apply ih
      intro x
      rw [lookup_append]
      cases hm : m.lookup x with
      | some v =>
        constructor
        · intro _
          exact List.mem_cons_of_mem _ ((hinv x).mp (by rw [hm]; rfl))
        · intro _; rfl
      | none =>
        by_cases hx : x = strncpyTrunc 63 f.1
        · have hb : (x == strncpyTrunc 63 f.1) = true := by simp [hx]
          simp [List.lookup, hb, hx]
        · have hb : (x == strncpyTrunc 63 f.1) = false := by simp [hx]
          have hxs : x ∉ seen := by
            intro hmem
            have := (hinv x).mpr hmem
            rw [hm] at this
            exact Bool.false_ne_true this
          simp [List.lookup, hb, hx, hxs]

/-- C8: for every field sequence a parsed message produces (dot-frame and
JSON paths feed fields through the same duplicate check), the transfer map
holds exactly the first occurrence of each name: building from the full
sequence equals building from the first-occurrence subsequence, and every
lookup returns the first occurrence's value; instantiated on the dot-frame
parse of an arbitrary message. -/
theorem C8_transfer_first_wins :
    (∀ fields : List (String × String),
      build_transfer fields = build_transfer (keep_first [] fields)) ∧
    (∀ (fields : List (String × String)) (n : String),
      (build_transfer fields).lookup n = first_value fields n) ∧
    (∀ (msg : String) (n : String),
      (build_transfer (parse_dotframe msg)).lookup n =
        first_value (parse_dotframe msg) n) := by
  have hlook : ∀ (fields : List (String × String)) (n : String),
      (build_transfer fields).lookup n = first_value fields n := by
    intro fields n
    have h := build_transfer_lookup_aux fields [] n
    simpa [build_transfer, List.lookup] using h
  refine ⟨?_, hlook, fun msg n => hlook _ n⟩
  intro fields
  exact keep_first_build_aux fields [] [] (by simp [List.lookup])

end Ckdb
